import Mathlib

/-!
Shallow embedding of the HandyPi gesture pipeline.

The embedding covers the two per-frame gesture loops (`run_live` in
`main.py`, the MediaPipe hand variant, and `run_live` in `yolo.py`,
the YOLO11 body-pose variant), the geometric measure functions in
`tracker.py` and `yolo.py`, and the RabbitMQ publishing layer in
`rabbitmq.py`.

Numeric idealization: Python floats are modelled exactly, with pixel
coordinates as integers (`main.py` stores landmarks in an `np.int32`
array) or rationals (`yolo.py` keypoints are float tensors), and
`np.linalg.norm` as the exact Euclidean norm `Real.sqrt` of the exact
squared distance.  Camera acquisition, model inference, rendering and
logging are outside the embedded core; a frame enters the embedding as
the detection result the loop branches on (`tracked_hands` for the hand
variant, `kpts_xy` for the body variant).
-/

/-- Wire payload produced by `json.dumps` in `rabbitmq.py`: the publisher
only ever serializes a boolean or a two-element numeric array. -/
inductive JsonVal where
  | jbool : Bool → JsonVal
  | jnum : ℚ → JsonVal
  | jarr : List JsonVal → JsonVal

/-- Events published for one frame: the optional pinch-trigger payload and
the optional thumb/hand-position payload, in loop order. -/
structure FrameOut where
  trigger : Option JsonVal
  position : Option JsonVal

/-- Body of `send_pinch_trigger` in `rabbitmq.py`: `json.dumps(is_pinching)`. -/
def send_pinch_trigger (is_pinching : Bool) : JsonVal :=
  JsonVal.jbool is_pinching

/-- Body of `send_thumb_position` in `rabbitmq.py`:
`json.dumps([thumb_x_normalized, thumb_y_normalized])`. -/
def send_thumb_position (thumb_x_normalized thumb_y_normalized : ℚ) : JsonVal :=
  JsonVal.jarr [JsonVal.jnum thumb_x_normalized, JsonVal.jnum thumb_y_normalized]

/-- One tracked hand from `tracker.py` (`TrackedHand`): handedness label and
the landmark array in integer pixel coordinates.  The bounding box is only
used for drawing and is omitted. -/
structure TrackedHand where
  handedness : String
  landmarks_px : List (ℤ × ℤ)

/-- Squared Euclidean distance between two integer pixel points. -/
def sqDistZ (a b : ℤ × ℤ) : ℤ :=
  (a.1 - b.1) ^ 2 + (a.2 - b.2) ^ 2

/-- Exact value of `np.linalg.norm(a - b)` on integer pixel points. -/
noncomputable def distZ (a b : ℤ × ℤ) : ℝ :=
  Real.sqrt ((sqDistZ a b : ℤ) : ℝ)

/-- The `PINCH_DISTANCE_THRESHOLD = 40` constant of `main.py`. -/
noncomputable def PINCH_DISTANCE_THRESHOLD : ℝ := 40

/-- The function `compute_pinch_distance` of `tracker.py`: distance between
thumb tip (index 4) and index tip (index 8), with `0.0` returned when the
landmark array has fewer than 9 rows.  The `getD` defaults are unreachable:
the guard ensures indices 4 and 8 are in range. -/
noncomputable def compute_pinch_distance (hand : TrackedHand) : ℝ :=
  if hand.landmarks_px.length < 9 then 0
  else distZ (hand.landmarks_px.getD 4 (0, 0)) (hand.landmarks_px.getD 8 (0, 0))

/-- The function `get_thumb_tip_position` of `tracker.py`: landmark 4 in
pixels, `(0, 0)` when the array has fewer than 5 rows. -/
def get_thumb_tip_position (hand : TrackedHand) : ℤ × ℤ :=
  if hand.landmarks_px.length < 5 then (0, 0)
  else hand.landmarks_px.getD 4 (0, 0)

/-- The inline classification `is_pinching = pinch_distance < PINCH_DISTANCE_THRESHOLD`
of `main.py` line 101. -/
noncomputable def is_pinching_hand (hand : TrackedHand) : Bool :=
  decide (compute_pinch_distance hand < PINCH_DISTANCE_THRESHOLD)

/-- One iteration of the gesture/RabbitMQ part of the `run_live` loop of
`main.py` (lines 98-138).  `channel` records whether `rabbitmq_channel` is
not `None`; `w`/`h` are the frame dimensions from `frame.shape`; the result
pairs the published payloads with the updated `previous_pinch_state`. -/
noncomputable def stepHand (channel : Bool) (w h : ℚ) (tracked_hands : List TrackedHand)
    (prev : Bool) : FrameOut × Bool :=
  match tracked_hands with
  | hand :: _ =>
      let is_pinching := is_pinching_hand hand
      (⟨if is_pinching ≠ prev ∧ channel = true then
          some (send_pinch_trigger is_pinching)
        else none,
        if is_pinching = true ∧ prev = false ∧ channel = true then
          some (send_thumb_position (((get_thumb_tip_position hand).1 : ℚ) / w)
            (((get_thumb_tip_position hand).2 : ℚ) / h))
        else none⟩,
       is_pinching)
  | [] =>
      if prev = true ∧ channel = true then
        (⟨some (send_pinch_trigger false), none⟩, false)
      else (⟨none, none⟩, prev)

/-- The `run_live` loop of `main.py`, restricted to the embedded gesture
core, run over a finite list of frames: returns the per-frame outputs and
the final `previous_pinch_state`. -/
noncomputable def runHand (channel : Bool) (w h : ℚ) (frames : List (List TrackedHand))
    (prev : Bool) : List FrameOut × Bool :=
  match frames with
  | [] => ([], prev)
  | f :: fs =>
      let s := stepHand channel w h f prev
      let r := runHand channel w h fs s.2
      (s.1 :: r.1, r.2)

/-- COCO keypoint indices used by `yolo.py`. -/
def NOSE_IDX : ℕ := 0

/-- Left shoulder keypoint index in `yolo.py`. -/
def LEFT_SHOULDER_IDX : ℕ := 5

/-- Right shoulder keypoint index in `yolo.py`. -/
def RIGHT_SHOULDER_IDX : ℕ := 6

/-- Right wrist keypoint index in `yolo.py`. -/
def RIGHT_WRIST_IDX : ℕ := 10

/-- The `PINCH_SCORE_THRESHOLD = 0.7` constant of `yolo.py`. -/
noncomputable def PINCH_SCORE_THRESHOLD : ℝ := 0.7

/-- Keypoint array of one detected person: float pixel coordinates. -/
abbrev Kpts := List (ℚ × ℚ)

/-- Squared Euclidean distance between two rational points. -/
def sqDistQ (a b : ℚ × ℚ) : ℚ :=
  (a.1 - b.1) ^ 2 + (a.2 - b.2) ^ 2

/-- Exact value of `np.linalg.norm(a - b)` on rational points. -/
noncomputable def distQ (a b : ℚ × ℚ) : ℝ :=
  Real.sqrt ((sqDistQ a b : ℚ) : ℝ)

/-- The function `compute_body_scale_from_kpts` of `yolo.py`: distance
between the shoulders, `1.0` when the shoulder indices are out of range or
the distance is not above `1e-3`. -/
noncomputable def compute_body_scale_from_kpts (kpts : Kpts) : ℝ :=
  if kpts.length ≤ max LEFT_SHOULDER_IDX RIGHT_SHOULDER_IDX then 1
  else
    let ls := kpts.getD LEFT_SHOULDER_IDX (0, 0)
    let rs := kpts.getD RIGHT_SHOULDER_IDX (0, 0)
    let scale := distQ ls rs
    if scale > 1e-3 then scale else 1

/-- The function `compute_pinch_score_from_kpts` of `yolo.py`:
`dist(right_wrist, nose) / body_scale`, with sentinel `1e9` when the nose
or right-wrist index is out of range. -/
noncomputable def compute_pinch_score_from_kpts (kpts : Kpts) : ℝ :=
  if kpts.length ≤ max NOSE_IDX RIGHT_WRIST_IDX then 1e9
  else
    distQ (kpts.getD RIGHT_WRIST_IDX (0, 0)) (kpts.getD NOSE_IDX (0, 0)) /
      compute_body_scale_from_kpts kpts

/-- Python `int(...)` truncation toward zero on an exact float value. -/
def pyInt (q : ℚ) : ℤ :=
  if 0 ≤ q then ⌊q⌋ else ⌈q⌉

/-- The function `get_hand_position_from_kpts` of `yolo.py`: the right
wrist, truncated to integer pixels.  The source has no range guard (its
caller checks `kpts.shape[0] > RIGHT_WRIST_IDX` first); the `getD` default
stands for the out-of-range case on which Python would raise. -/
def get_hand_position_from_kpts (kpts : Kpts) : ℤ × ℤ :=
  (pyInt (kpts.getD RIGHT_WRIST_IDX (0, 0)).1, pyInt (kpts.getD RIGHT_WRIST_IDX (0, 0)).2)

/-- The inline classification `is_pinching = pinch_score < PINCH_SCORE_THRESHOLD`
of `yolo.py` line 244. -/
noncomputable def is_pinching_body (kpts : Kpts) : Bool :=
  decide (compute_pinch_score_from_kpts kpts < PINCH_SCORE_THRESHOLD)

/-- One iteration of the gesture/RabbitMQ part of the `run_live` loop of
`yolo.py` (lines 242-290).  A frame is `none` when no keypoints were
selected (`kpts_xy is None`); the branch guard `kpts_xy.shape[0] >
RIGHT_WRIST_IDX` is mirrored, with the `else` branch identical to the
no-detection branch as in the source. -/
noncomputable def stepBody (channel : Bool) (w h : ℚ) (kpts_xy : Option Kpts)
    (prev : Bool) : FrameOut × Bool :=
  match kpts_xy with
  | some kpts =>
      if kpts.length > RIGHT_WRIST_IDX then
        let is_pinching := is_pinching_body kpts
        (⟨if is_pinching ≠ prev ∧ channel = true then
            some (send_pinch_trigger is_pinching)
          else none,
          if is_pinching = true ∧ prev = false ∧ channel = true then
            some (send_thumb_position (((get_hand_position_from_kpts kpts).1 : ℚ) / w)
              (((get_hand_position_from_kpts kpts).2 : ℚ) / h))
          else none⟩,
         is_pinching)
      else
        if prev = true ∧ channel = true then
          (⟨some (send_pinch_trigger false), none⟩, false)
        else (⟨none, none⟩, prev)
  | none =>
      if prev = true ∧ channel = true then
        (⟨some (send_pinch_trigger false), none⟩, false)
      else (⟨none, none⟩, prev)

/-- The `run_live` loop of `yolo.py`, restricted to the embedded gesture
core, run over a finite list of frames. -/
noncomputable def runBody (channel : Bool) (w h : ℚ) (frames : List (Option Kpts))
    (prev : Bool) : List FrameOut × Bool :=
  match frames with
  | [] => ([], prev)
  | f :: fs =>
      let s := stepBody channel w h f prev
      let r := runBody channel w h fs s.2
      (s.1 :: r.1, r.2)

/-- Per-frame activation value for the hand variant, following the spec:
the threshold classification of the first tracked hand, forced to `false`
when no hand is detected. -/
noncomputable def activeNowHand (tracked_hands : List TrackedHand) : Bool :=
  match tracked_hands with
  | hand :: _ => is_pinching_hand hand
  | [] => false

/-- Per-frame activation value for the body variant, following the spec:
the threshold classification of the selected keypoints, forced to `false`
when no subject (or too few keypoints) is detected. -/
noncomputable def activeNowBody (kpts_xy : Option Kpts) : Bool :=
  match kpts_xy with
  | some kpts => if kpts.length > RIGHT_WRIST_IDX then is_pinching_body kpts else false
  | none => false

/-- Transcription of the spec sentence for the hand variant: a trigger is
emitted for frame i exactly when the frame's activation value differs from
the previous frame's activation value (initially `false`), carrying the new
value. -/
noncomputable def specTriggersHand (prev : Bool) : List (List TrackedHand) → List (Option JsonVal)
  | [] => []
  | f :: fs =>
      (if activeNowHand f ≠ prev then some (send_pinch_trigger (activeNowHand f)) else none)
        :: specTriggersHand (activeNowHand f) fs

/-- Transcription of the spec sentence for the body variant: a trigger is
emitted for frame i exactly when the frame's activation value differs from
the previous frame's activation value (initially `false`). -/
noncomputable def specTriggersBody (prev : Bool) : List (Option Kpts) → List (Option JsonVal)
  | [] => []
  | f :: fs =>
      (if activeNowBody f ≠ prev then some (send_pinch_trigger (activeNowBody f)) else none)
        :: specTriggersBody (activeNowBody f) fs

/-- A body-variant frame with no usable subject: either no detection, or a
keypoint array too short to pass the loop guard. -/
def bodyNoSubject (kpts_xy : Option Kpts) : Prop :=
  ∀ kpts, kpts_xy = some kpts → ¬ (kpts.length > RIGHT_WRIST_IDX)

/-- Result of the exchange declaration attempted by
`setup_rabbitmq_connection` (`rabbitmq.py`): success, a
`ChannelClosedByBroker` exception with the broker's reply code, or any
other exception. -/
inductive DeclareResult where
  | success
  | channelClosedByBroker (reply_code : ℕ)
  | otherFailure

/-- Result of opening the blocking connection: either a connection over
which declaration behaves per the `DeclareResult`, or a connection failure
(unreachable broker, bad credentials). -/
inductive ConnectResult where
  | ok (declare : DeclareResult)
  | connectFailure

/-- Broker-facing actions taken during setup, in order. -/
inductive SetupAction where
  | openConnection
  | openChannel
  | declareExchange
deriving DecidableEq

/-- Exceptions escaping `setup_rabbitmq_connection`. -/
inductive SetupError where
  | connectFailure
  | channelClosedByBroker (reply_code : ℕ)
  | declareFailure
deriving DecidableEq

/-- The function `setup_rabbitmq_connection` of `rabbitmq.py`, as a
function of the broker's behavior: returns the ordered action trace and
either the index of the channel handed back (1 = the first channel, 2 =
the fresh channel opened after a reply-code-406 `ChannelClosedByBroker`)
or the escaping exception.  Only a 406 close is recovered; other reply
codes are re-raised and any non-`ChannelClosedByBroker` declaration error
propagates uncaught. -/
def setup_rabbitmq_connection (r : ConnectResult) : List SetupAction × Except SetupError ℕ :=
  match r with
  | ConnectResult.connectFailure =>
      ([SetupAction.openConnection], Except.error SetupError.connectFailure)
  | ConnectResult.ok d =>
      match d with
      | DeclareResult.success =>
          ([SetupAction.openConnection, SetupAction.openChannel, SetupAction.declareExchange],
           Except.ok 1)
      | DeclareResult.channelClosedByBroker c =>
          if c = 406 then
            ([SetupAction.openConnection, SetupAction.openChannel, SetupAction.declareExchange,
              SetupAction.openChannel],
             Except.ok 2)
          else
            ([SetupAction.openConnection, SetupAction.openChannel, SetupAction.declareExchange],
             Except.error (SetupError.channelClosedByBroker c))
      | DeclareResult.otherFailure =>
          ([SetupAction.openConnection, SetupAction.openChannel, SetupAction.declareExchange],
           Except.error SetupError.declareFailure)

/-- The try/except around `setup_rabbitmq_connection()` in `run_live`
(`main.py` lines 63-69, `yolo.py` lines 170-176): a failure is caught and
the channel recorded as `None`. -/
def rabbitmq_channel_of (r : ConnectResult) : Option ℕ :=
  match (setup_rabbitmq_connection r).2 with
  | Except.ok ch => some ch
  | Except.error _ => none

/-- A hand whose landmark array is empty: the degenerate input for the
missing-landmark guards. -/
def emptyHand : TrackedHand :=
  ⟨"Left", []⟩

/-- A hand whose thumb tip and index tip coincide at pixel (700, 200),
outside a 640-wide frame: pinch distance 0, anchor out of frame bounds. -/
def hand700 : TrackedHand :=
  ⟨"Right", [(0, 0), (0, 0), (0, 0), (0, 0), (700, 200), (0, 0), (0, 0), (0, 0), (700, 200)]⟩

/-- A hand whose pinch distance is exactly the threshold 40: thumb tip at
(0, 0), index tip at (40, 0). -/
def hand40 : TrackedHand :=
  ⟨"Right", [(0, 0), (0, 0), (0, 0), (0, 0), (0, 0), (0, 0), (0, 0), (0, 0), (40, 0)]⟩

/-- A keypoint array whose pinch score is exactly the threshold 0.7: nose
at (0, 0), shoulders 10 pixels apart, right wrist 7 pixels from the nose. -/
def body07 : Kpts :=
  [(0, 0), (0, 0), (0, 0), (0, 0), (0, 0), (0, 0), (10, 0), (0, 0), (0, 0), (0, 0), (7, 0)]

/-- A keypoint array whose shoulders are exactly `1e-3` apart. -/
def bodyEq : Kpts :=
  [(0, 0), (0, 0), (0, 0), (0, 0), (0, 0), (0, 0), (1/1000, 0)]

/-- A keypoint array whose shoulders are at (0, 0) and (3, 4), distance 5. -/
def body25 : Kpts :=
  [(0, 0), (0, 0), (0, 0), (0, 0), (0, 0), (0, 0), (3, 4)]

/-- Shoulder distance of a keypoint array: the Euclidean distance between
the two designated reference landmarks. -/
noncomputable def shoulder_dist (kpts : Kpts) : ℝ :=
  distQ (kpts.getD LEFT_SHOULDER_IDX (0, 0)) (kpts.getD RIGHT_SHOULDER_IDX (0, 0))

/-- Evaluation helper: the exact norm of an integer-pixel displacement
whose squared length is a perfect square. -/
theorem distZ_eq (a b : ℤ × ℤ) (r : ℝ) (hr : 0 ≤ r)
    (h : ((sqDistZ a b : ℤ) : ℝ) = r ^ 2) : distZ a b = r := by
  rw [distZ, h, Real.sqrt_sq hr]

/-- Evaluation helper: the exact norm of a rational displacement whose
squared length is a perfect square. -/
theorem distQ_eq (a b : ℚ × ℚ) (r : ℝ) (hr : 0 ≤ r)
    (h : ((sqDistQ a b : ℚ) : ℝ) = r ^ 2) : distQ a b = r := by
  rw [distQ, h, Real.sqrt_sq hr]

/-- With a live channel, the trigger output of one hand-variant step is
exactly the edge-triggered event of the spec. -/
theorem stepHand_true_trigger (w h : ℚ) (f : List TrackedHand) (prev : Bool) :
    (stepHand true w h f prev).1.trigger =
      if activeNowHand f ≠ prev then some (send_pinch_trigger (activeNowHand f)) else none := by
  cases f with
  | nil => cases prev <;> simp [stepHand, activeNowHand]
  | cons hand rest =>
      cases hb : is_pinching_hand hand <;> cases prev <;>
        simp [stepHand, activeNowHand, hb]

/-- With a live channel, the state stored by one hand-variant step is the
frame's activation value. -/
theorem stepHand_true_state (w h : ℚ) (f : List TrackedHand) (prev : Bool) :
    (stepHand true w h f prev).2 = activeNowHand f := by
  cases f with
  | nil => cases prev <;> simp [stepHand, activeNowHand]
  | cons hand rest => simp [stepHand, activeNowHand]

/-- With a live channel, the trigger output of one body-variant step is
exactly the edge-triggered event of the spec. -/
theorem stepBody_true_trigger (w h : ℚ) (f : Option Kpts) (prev : Bool) :
    (stepBody true w h f prev).1.trigger =
      if activeNowBody f ≠ prev then some (send_pinch_trigger (activeNowBody f)) else none := by
  cases f with
  | none => cases prev <;> simp [stepBody, activeNowBody]
  | some kpts =>
      by_cases hlen : kpts.length > RIGHT_WRIST_IDX
      · cases hb : is_pinching_body kpts <;> cases prev <;>
          simp [stepBody, activeNowBody, hlen, hb]
      · cases prev <;> simp [stepBody, activeNowBody, hlen]

/-- With a live channel, the state stored by one body-variant step is the
frame's activation value. -/
theorem stepBody_true_state (w h : ℚ) (f : Option Kpts) (prev : Bool) :
    (stepBody true w h f prev).2 = activeNowBody f := by
  cases f with
  | none => cases prev <;> simp [stepBody, activeNowBody]
  | some kpts =>
      by_cases hlen : kpts.length > RIGHT_WRIST_IDX
      · simp [stepBody, activeNowBody, hlen]
      · cases prev <;> simp [stepBody, activeNowBody, hlen]

/-- With a live channel, the trigger outputs of a hand-variant run are the
spec's edge-triggered events. -/
theorem runHand_map_trigger (w h : ℚ) (frames : List (List TrackedHand)) (prev : Bool) :
    (runHand true w h frames prev).1.map FrameOut.trigger = specTriggersHand prev frames := by
  induction frames generalizing prev with
  | nil => simp [runHand, specTriggersHand]
  | cons f fs ih =>
      simp only [runHand, specTriggersHand, List.map_cons]
      rw [stepHand_true_state, stepHand_true_trigger, ih]

/-- With a live channel, the trigger outputs of a body-variant run are the
spec's edge-triggered events. -/
theorem runBody_map_trigger (w h : ℚ) (frames : List (Option Kpts)) (prev : Bool) :
    (runBody true w h frames prev).1.map FrameOut.trigger = specTriggersBody prev frames := by
  induction frames generalizing prev with
  | nil => simp [runBody, specTriggersBody]
  | cons f fs ih =>
      simp only [runBody, specTriggersBody, List.map_cons]
      rw [stepBody_true_state, stepBody_true_trigger, ih]

/-- C1: for every sequence of frames (starting from the initial stored
state `false`, with a live channel), a trigger is published for frame i
exactly when the frame's activation value differs from the previous
frame's activation value, carrying the new value; after each frame the
stored state equals that frame's activation value, so when the two are
equal nothing is published and the stored state is unchanged.  Both the
`main.py` hand variant and the `yolo.py` body variant are covered. -/
theorem C1_trigger_iff_edge :
    (∀ w h frames, (runHand true w h frames false).1.map FrameOut.trigger =
        specTriggersHand false frames)
    ∧ (∀ w h f prev, (stepHand true w h f prev).2 = activeNowHand f)
    ∧ (∀ w h frames, (runBody true w h frames false).1.map FrameOut.trigger =
        specTriggersBody false frames)
    ∧ (∀ w h f prev, (stepBody true w h f prev).2 = activeNowBody f) :=
  ⟨fun w h frames => runHand_map_trigger w h frames false,
   stepHand_true_state,
   fun w h frames => runBody_map_trigger w h frames false,
   stepBody_true_state⟩

/-- C2: in both variants, a position payload is published on a frame
exactly when that frame publishes a trigger with value `true` and the
stored previous state was `false`; in particular no position event ever
appears without an accompanying `TriggerEvent(true)`. -/
theorem C2_position_iff_rising_edge :
    (∀ ch w h f prev, ((stepHand ch w h f prev).1.position ≠ none ↔
        (stepHand ch w h f prev).1.trigger = some (send_pinch_trigger true) ∧ prev = false))
    ∧ (∀ ch w h f prev, ((stepBody ch w h f prev).1.position ≠ none ↔
        (stepBody ch w h f prev).1.trigger = some (send_pinch_trigger true) ∧ prev = false)) := by
  constructor
  · intro ch w h f prev
    cases f with
    | nil => cases prev <;> cases ch <;> simp [stepHand, send_pinch_trigger]
    | cons hand rest =>
        cases hb : is_pinching_hand hand <;> cases prev <;> cases ch <;>
          simp [stepHand, send_pinch_trigger, hb]
  · intro ch w h f prev
    cases f with
    | none => cases prev <;> cases ch <;> simp [stepBody, send_pinch_trigger]
    | some kpts =>
        by_cases hlen : kpts.length > RIGHT_WRIST_IDX
        · cases hb : is_pinching_body kpts <;> cases prev <;> cases ch <;>
            simp [stepBody, send_pinch_trigger, hb, hlen]
        · cases prev <;> cases ch <;> simp [stepBody, send_pinch_trigger, hlen]

/-- The degenerate-hand guard is taken for `hand700`: thumb and index tip
coincide, so the pinch distance is 0. -/
theorem compute_pinch_distance_hand700 : compute_pinch_distance hand700 = 0 := by
  have h : compute_pinch_distance hand700 = distZ (700, 200) (700, 200) := rfl
  rw [h]
  exact distZ_eq _ _ 0 le_rfl (by norm_num [sqDistZ])

/-- The frame `hand700` classifies as pinching. -/
theorem is_pinching_hand700 : is_pinching_hand hand700 = true := by
  rw [is_pinching_hand, compute_pinch_distance_hand700]
  exact decide_eq_true (by norm_num [PINCH_DISTANCE_THRESHOLD])

/-- A run over frames with no detected hand, from stored state `false`,
publishes nothing and keeps the state `false`. -/
theorem runHand_all_noSubject (w h : ℚ) (frames : List (List TrackedHand))
    (hall : ∀ f ∈ frames, f = []) :
    runHand true w h frames false = (List.replicate frames.length ⟨none, none⟩, false) := by
  induction frames with
  | nil => simp [runHand]
  | cons f fs ih =>
      have hf : f = [] := hall f (by simp)
      have hfs : ∀ g ∈ fs, g = [] := fun g hg => hall g (by simp [hg])
      subst hf
      simp [runHand, stepHand, ih hfs, List.replicate_succ]

/-- A no-subject body frame takes the reset branch of the loop. -/
theorem stepBody_noSubject (ch : Bool) (w h : ℚ) (f : Option Kpts)
    (hf : bodyNoSubject f) (prev : Bool) :
    stepBody ch w h f prev =
      if prev = true ∧ ch = true then (⟨some (send_pinch_trigger false), none⟩, false)
      else (⟨none, none⟩, prev) := by
  cases f with
  | none => rfl
  | some kpts =>
      have hlen : ¬ (kpts.length > RIGHT_WRIST_IDX) := hf kpts rfl
      simp [stepBody, hlen]

/-- A run over frames with no usable subject, from stored state `false`,
publishes nothing and keeps the state `false` (body variant). -/
theorem runBody_all_noSubject (w h : ℚ) (frames : List (Option Kpts))
    (hall : ∀ f ∈ frames, bodyNoSubject f) :
    runBody true w h frames false = (List.replicate frames.length ⟨none, none⟩, false) := by
  induction frames with
  | nil => simp [runBody]
  | cons f fs ih =>
      have hf : bodyNoSubject f := hall f (by simp)
      have hfs : ∀ g ∈ fs, bodyNoSubject g := fun g hg => hall g (by simp [hg])
      simp [runBody, stepBody_noSubject true w h f hf, ih hfs, List.replicate_succ]

/-- C4: in both variants, with a live channel, when the stored state is
`ACTIVE` and the subject is then absent for k >= 1 consecutive frames,
exactly one `Trigger(false)` is published, on the first no-subject frame,
nothing on the following ones, and the stored state is reset to `false`. -/
theorem C4_no_subject_single_reset :
    (∀ (w h : ℚ) (frames : List (List TrackedHand)), 1 ≤ frames.length →
      (∀ f ∈ frames, f = []) →
      (runHand true w h frames true).1 =
        ⟨some (send_pinch_trigger false), none⟩ ::
          List.replicate (frames.length - 1) ⟨none, none⟩
      ∧ (runHand true w h frames true).2 = false)
    ∧ (∀ (w h : ℚ) (frames : List (Option Kpts)), 1 ≤ frames.length →
      (∀ f ∈ frames, bodyNoSubject f) →
      (runBody true w h frames true).1 =
        ⟨some (send_pinch_trigger false), none⟩ ::
          List.replicate (frames.length - 1) ⟨none, none⟩
      ∧ (runBody true w h frames true).2 = false) := by
  constructor
  · intro w h frames hlen hall
    match frames with
    | [] => simp at hlen
    | f :: fs =>
        have hf : f = [] := hall f (by simp)
        have hfs : ∀ g ∈ fs, g = [] := fun g hg => hall g (by simp [hg])
        subst hf
        simp [runHand, stepHand, runHand_all_noSubject w h fs hfs]
  · intro w h frames hlen hall
    match frames with
    | [] => simp at hlen
    | f :: fs =>
        have hf : bodyNoSubject f := hall f (by simp)
        have hfs : ∀ g ∈ fs, bodyNoSubject g := fun g hg => hall g (by simp [hg])
        simp [runBody, stepBody_noSubject true w h f hf, runBody_all_noSubject w h fs hfs]

/-- Witness for C4 at three consecutive no-subject frames in each variant
(the spec's Scenario B). -/
theorem C4_witness :
    ((runHand true 640 480 [[], [], []] true).1 =
        ⟨some (send_pinch_trigger false), none⟩ ::
          List.replicate (List.length [([] : List TrackedHand), [], []] - 1) ⟨none, none⟩
      ∧ (runHand true 640 480 [[], [], []] true).2 = false)
    ∧ ((runBody true 640 480 [none, none, none] true).1 =
        ⟨some (send_pinch_trigger false), none⟩ ::
          List.replicate (List.length [(none : Option Kpts), none, none] - 1) ⟨none, none⟩
      ∧ (runBody true 640 480 [none, none, none] true).2 = false) := by
  constructor
  · exact C4_no_subject_single_reset.1 640 480 [[], [], []] (by simp) (by simp)
  · refine C4_no_subject_single_reset.2 640 480 [none, none, none] (by simp) ?_
    intro f hf kpts hk
    simp at hf
    simp [hf] at hk

/-- C5: in both variants the activation decision is a strict less-than
against the threshold: a score exactly equal to the threshold (40 for the
hand variant, 0.7 for the body variant) classifies as not active. -/
theorem C5_threshold_boundary :
    (∀ hand, compute_pinch_distance hand = PINCH_DISTANCE_THRESHOLD →
      is_pinching_hand hand = false)
    ∧ (∀ kpts, compute_pinch_score_from_kpts kpts = PINCH_SCORE_THRESHOLD →
      is_pinching_body kpts = false) := by
  constructor
  · intro hand hEq
    rw [is_pinching_hand, hEq]
    exact decide_eq_false (lt_irrefl _)
  · intro kpts hEq
    rw [is_pinching_body, hEq]
    exact decide_eq_false (lt_irrefl _)

/-- The pinch distance of `hand40` is exactly the threshold 40. -/
theorem compute_pinch_distance_hand40 :
    compute_pinch_distance hand40 = PINCH_DISTANCE_THRESHOLD := by
  have h : compute_pinch_distance hand40 = distZ (0, 0) (40, 0) := rfl
  rw [h, PINCH_DISTANCE_THRESHOLD]
  exact distZ_eq _ _ 40 (by norm_num) (by norm_num [sqDistZ])

/-- The body scale of `body07` is the shoulder distance 10. -/
theorem compute_body_scale_body07 : compute_body_scale_from_kpts body07 = 10 := by
  have h : compute_body_scale_from_kpts body07 =
      if distQ (0, 0) (10, 0) > 1e-3 then distQ (0, 0) (10, 0) else 1 := rfl
  have hd : distQ (0, 0) (10, 0) = 10 := distQ_eq _ _ 10 (by norm_num) (by norm_num [sqDistQ])
  rw [h, hd, if_pos (by norm_num)]

/-- The pinch score of `body07` is exactly the threshold 0.7. -/
theorem compute_pinch_score_body07 :
    compute_pinch_score_from_kpts body07 = PINCH_SCORE_THRESHOLD := by
  have h : compute_pinch_score_from_kpts body07 =
      distQ (7, 0) (0, 0) / compute_body_scale_from_kpts body07 := rfl
  have hd : distQ (7, 0) (0, 0) = 7 := distQ_eq _ _ 7 (by norm_num) (by norm_num [sqDistQ])
  rw [h, hd, compute_body_scale_body07, PINCH_SCORE_THRESHOLD]
  norm_num

/-- Witness for C5: a hand at pinch distance exactly 40 and a keypoint set
at pinch score exactly 0.7, both classified not active. -/
theorem C5_witness :
    (compute_pinch_distance hand40 = PINCH_DISTANCE_THRESHOLD
      ∧ is_pinching_hand hand40 = false)
    ∧ (compute_pinch_score_from_kpts body07 = PINCH_SCORE_THRESHOLD
      ∧ is_pinching_body body07 = false) :=
  ⟨⟨compute_pinch_distance_hand40,
    C5_threshold_boundary.1 hand40 compute_pinch_distance_hand40⟩,
   ⟨compute_pinch_score_body07,
    C5_threshold_boundary.2 body07 compute_pinch_score_body07⟩⟩

/-- C6: every published position payload is the JSON array
`[anchor_x / frame_width, anchor_y / frame_height]`, the exact quotients
with no clamping to [0, 1], in both variants; the final conjunct shows the
pass-through at a concrete frame whose anchor x = 700 lies outside a
640-wide frame, yielding the out-of-range component 35/32 > 1. -/
theorem C6_position_payload :
    (∀ (ch : Bool) (w h : ℚ) hand rest prev,
      (stepHand ch w h (hand :: rest) prev).1.position =
        if is_pinching_hand hand = true ∧ prev = false ∧ ch = true then
          some (JsonVal.jarr [JsonVal.jnum (((get_thumb_tip_position hand).1 : ℚ) / w),
            JsonVal.jnum (((get_thumb_tip_position hand).2 : ℚ) / h)])
        else none)
    ∧ (∀ (ch : Bool) (w h : ℚ) prev, (stepHand ch w h [] prev).1.position = none)
    ∧ (∀ (ch : Bool) (w h : ℚ) kpts prev,
      (stepBody ch w h (some kpts) prev).1.position =
        if RIGHT_WRIST_IDX < kpts.length ∧ is_pinching_body kpts = true ∧ prev = false
            ∧ ch = true then
          some (JsonVal.jarr [JsonVal.jnum (((get_hand_position_from_kpts kpts).1 : ℚ) / w),
            JsonVal.jnum (((get_hand_position_from_kpts kpts).2 : ℚ) / h)])
        else none)
    ∧ (∀ (ch : Bool) (w h : ℚ) prev, (stepBody ch w h none prev).1.position = none)
    ∧ ((stepHand true 640 480 [hand700] false).1.position =
        some (JsonVal.jarr [JsonVal.jnum (35/32), JsonVal.jnum (5/12)])
      ∧ (1 : ℚ) < 35/32) := by
  refine ⟨?_, ?_, ?_, ?_, ?_, ?_⟩
  · intro ch w h hand rest prev
    cases hb : is_pinching_hand hand <;> cases prev <;> cases ch <;>
      simp [stepHand, send_thumb_position, hb]
  · intro ch w h prev
    cases prev <;> cases ch <;> simp [stepHand]
  · intro ch w h kpts prev
    by_cases hlen : kpts.length > RIGHT_WRIST_IDX
    · cases hb : is_pinching_body kpts <;> cases prev <;> cases ch <;>
        simp [stepBody, send_thumb_position, hb, hlen]
    · cases prev <;> cases ch <;> simp [stepBody, hlen]
  · intro ch w h prev
    cases prev <;> cases ch <;> simp [stepBody]
  · have hthumb : get_thumb_tip_position hand700 = (700, 200) := rfl
    simp [stepHand, is_pinching_hand700, send_thumb_position, hthumb]
    constructor <;> norm_num
  · norm_num

/-- C7: a declaration failure closed by the broker with reply code 406 is
recovered by opening a fresh channel on the same connection (the second
`openChannel` in the trace), the exchange is not re-declared (exactly one
`declareExchange`), and setup returns normally; a broker close with any
other reply code, or any other declaration failure, propagates as an
error. -/
theorem C7_setup_recovery :
    (setup_rabbitmq_connection (ConnectResult.ok (DeclareResult.channelClosedByBroker 406)) =
      ([SetupAction.openConnection, SetupAction.openChannel, SetupAction.declareExchange,
        SetupAction.openChannel], Except.ok 2))
    ∧ ((setup_rabbitmq_connection
        (ConnectResult.ok (DeclareResult.channelClosedByBroker 406))).1.count
          SetupAction.declareExchange = 1)
    ∧ (∀ c, c ≠ 406 →
      (setup_rabbitmq_connection (ConnectResult.ok (DeclareResult.channelClosedByBroker c))).2 =
        Except.error (SetupError.channelClosedByBroker c))
    ∧ ((setup_rabbitmq_connection (ConnectResult.ok DeclareResult.otherFailure)).2 =
        Except.error SetupError.declareFailure) := by
  refine ⟨rfl, by decide, ?_, rfl⟩
  intro c hc
  simp [setup_rabbitmq_connection, hc]

/-- Witness for C7: reply code 500 is not recovered and propagates. -/
theorem C7_witness :
    (500 : ℕ) ≠ 406
    ∧ (setup_rabbitmq_connection (ConnectResult.ok (DeclareResult.channelClosedByBroker 500))).2 =
        Except.error (SetupError.channelClosedByBroker 500) :=
  ⟨by decide, C7_setup_recovery.2.2.1 500 (by decide)⟩

/-- Shared fact: a hand whose landmark array has fewer than 9 rows gets
pinch distance `0.0` and classifies as pinching. -/
theorem short_hand_classifies_active (hand : TrackedHand)
    (hlen : hand.landmarks_px.length < 9) :
    compute_pinch_distance hand = 0 ∧ is_pinching_hand hand = true := by
  have h0 : compute_pinch_distance hand = 0 := by
    rw [compute_pinch_distance, if_pos hlen]
  refine ⟨h0, ?_⟩
  rw [is_pinching_hand, h0]
  exact decide_eq_true (by norm_num [PINCH_DISTANCE_THRESHOLD])

/-- C10: a tracked hand whose landmark array has fewer than 9 rows gets
pinch distance `0.0`, which is strictly below the threshold 40, so the
frame classifies as pinching (active). -/
theorem C10_short_landmarks_active :
    ∀ hand : TrackedHand, hand.landmarks_px.length < 9 →
      compute_pinch_distance hand = 0 ∧ (0 : ℝ) < PINCH_DISTANCE_THRESHOLD
        ∧ is_pinching_hand hand = true := by
  intro hand hlen
  have h := short_hand_classifies_active hand hlen
  exact ⟨h.1, by norm_num [PINCH_DISTANCE_THRESHOLD], h.2⟩

/-- Witness for C10: the hand with an empty landmark array. -/
theorem C10_witness :
    emptyHand.landmarks_px.length < 9
    ∧ (compute_pinch_distance emptyHand = 0 ∧ (0 : ℝ) < PINCH_DISTANCE_THRESHOLD
      ∧ is_pinching_hand emptyHand = true) :=
  ⟨by simp [emptyHand], C10_short_landmarks_active emptyHand (by simp [emptyHand])⟩

/-- Counterexample to C3 as stated: in the hand variant, a hand with no
landmarks at all gets score `0.0`, not a large sentinel, and the resulting
classification is active, not "not active". -/
theorem C3_counterexample :
    compute_pinch_distance emptyHand = 0
    ∧ is_pinching_hand emptyHand = true
    ∧ ¬ is_pinching_hand emptyHand = false := by
  have h := short_hand_classifies_active emptyHand (by simp [emptyHand])
  exact ⟨h.1, h.2, by simp [h.2]⟩

/-- C3 amended: the sentinel guarantee holds only for the body variant —
any keypoint array with at most 10 rows scores the sentinel `1e9` and
classifies as not active — while the hand variant returns `0.0` for a
landmark array with fewer than 9 rows, which classifies as active. -/
theorem C3_amended_sentinel :
    (∀ kpts : Kpts, kpts.length ≤ 10 →
      compute_pinch_score_from_kpts kpts = 1e9 ∧ is_pinching_body kpts = false)
    ∧ (∀ hand : TrackedHand, hand.landmarks_px.length < 9 →
      compute_pinch_distance hand = 0 ∧ is_pinching_hand hand = true) := by
  constructor
  · intro kpts hlen
    have hguard : kpts.length ≤ max NOSE_IDX RIGHT_WRIST_IDX := by
      simpa [NOSE_IDX, RIGHT_WRIST_IDX] using hlen
    have hs : compute_pinch_score_from_kpts kpts = 1e9 := by
      rw [compute_pinch_score_from_kpts, if_pos hguard]
    refine ⟨hs, ?_⟩
    rw [is_pinching_body, hs]
    exact decide_eq_false (by norm_num [PINCH_SCORE_THRESHOLD])
  · exact short_hand_classifies_active

/-- Witness for the amended C3: the empty keypoint array and the empty
hand. -/
theorem C3_witness :
    (List.length ([] : Kpts) ≤ 10 ∧ compute_pinch_score_from_kpts [] = 1e9
      ∧ is_pinching_body [] = false)
    ∧ (emptyHand.landmarks_px.length < 9 ∧ compute_pinch_distance emptyHand = 0
      ∧ is_pinching_hand emptyHand = true) :=
  ⟨⟨by simp, (C3_amended_sentinel.1 [] (by simp)).1, (C3_amended_sentinel.1 [] (by simp)).2⟩,
   ⟨by simp [emptyHand], (C3_amended_sentinel.2 emptyHand (by simp [emptyHand])).1,
    (C3_amended_sentinel.2 emptyHand (by simp [emptyHand])).2⟩⟩

/-- When the shoulder indices are in range, the body scale is the shoulder
distance if it exceeds `1e-3`, else `1.0`. -/
theorem compute_body_scale_eq (kpts : Kpts)
    (hlen : max LEFT_SHOULDER_IDX RIGHT_SHOULDER_IDX < kpts.length) :
    compute_body_scale_from_kpts kpts =
      if shoulder_dist kpts > 1e-3 then shoulder_dist kpts else 1 := by
  rw [compute_body_scale_from_kpts, if_neg (not_le.2 hlen)]
  rfl

/-- Counterexample to C9 as stated: shoulders exactly `1e-3` apart — a
distance not below `1e-3`, for which the claim predicts the distance is
returned — yield scale `1.0` instead of the distance. -/
theorem C9_counterexample :
    shoulder_dist bodyEq = 1/1000
    ∧ ¬ shoulder_dist bodyEq < 1e-3
    ∧ max LEFT_SHOULDER_IDX RIGHT_SHOULDER_IDX < bodyEq.length
    ∧ compute_body_scale_from_kpts bodyEq = 1
    ∧ compute_body_scale_from_kpts bodyEq ≠ shoulder_dist bodyEq := by
  have hd : shoulder_dist bodyEq = 1/1000 := by
    have h : shoulder_dist bodyEq = distQ (0, 0) (1/1000, 0) := rfl
    rw [h]
    exact distQ_eq _ _ (1/1000) (by norm_num) (by norm_num [sqDistQ])
  have hlen : max LEFT_SHOULDER_IDX RIGHT_SHOULDER_IDX < bodyEq.length := by
    simp [LEFT_SHOULDER_IDX, RIGHT_SHOULDER_IDX, bodyEq]
  have hscale : compute_body_scale_from_kpts bodyEq = 1 := by
    rw [compute_body_scale_eq bodyEq hlen, hd, if_neg (by norm_num)]
  refine ⟨hd, by rw [hd]; norm_num, hlen, hscale, ?_⟩
  rw [hscale, hd]
  norm_num

/-- C9 amended: the body scale is the Euclidean distance between the two
shoulder landmarks, except that `1.0` is returned when the shoulder
indices are missing from the array or the distance is at most `1e-3` (the
source keeps the distance only when it is strictly greater than `1e-3`). -/
theorem C9_amended_scale :
    ∀ kpts : Kpts,
      (kpts.length ≤ max LEFT_SHOULDER_IDX RIGHT_SHOULDER_IDX →
        compute_body_scale_from_kpts kpts = 1)
      ∧ (max LEFT_SHOULDER_IDX RIGHT_SHOULDER_IDX < kpts.length →
        (1e-3 < shoulder_dist kpts →
          compute_body_scale_from_kpts kpts = shoulder_dist kpts)
        ∧ (shoulder_dist kpts ≤ 1e-3 → compute_body_scale_from_kpts kpts = 1)) := by
  intro kpts
  constructor
  · intro hlen
    rw [compute_body_scale_from_kpts, if_pos hlen]
  · intro hlen
    constructor
    · intro hd
      rw [compute_body_scale_eq kpts hlen, if_pos hd]
    · intro hd
      rw [compute_body_scale_eq kpts hlen, if_neg (not_lt.2 hd)]

/-- Witness for the amended C9: shoulders 5 pixels apart give scale 5, the
empty keypoint array gives the fallback 1. -/
theorem C9_witness :
    (max LEFT_SHOULDER_IDX RIGHT_SHOULDER_IDX < body25.length
      ∧ shoulder_dist body25 = 5
      ∧ compute_body_scale_from_kpts body25 = shoulder_dist body25)
    ∧ (List.length ([] : Kpts) ≤ max LEFT_SHOULDER_IDX RIGHT_SHOULDER_IDX
      ∧ compute_body_scale_from_kpts ([] : Kpts) = 1) := by
  have hd : shoulder_dist body25 = 5 := by
    have h : shoulder_dist body25 = distQ (0, 0) (3, 4) := rfl
    rw [h]
    exact distQ_eq _ _ 5 (by norm_num) (by norm_num [sqDistQ])
  have hlen : max LEFT_SHOULDER_IDX RIGHT_SHOULDER_IDX < body25.length := by
    simp [LEFT_SHOULDER_IDX, RIGHT_SHOULDER_IDX, body25]
  refine ⟨⟨hlen, hd, ((C9_amended_scale body25).2 hlen).1 (by rw [hd]; norm_num)⟩,
    ⟨by simp, (C9_amended_scale []).1 (by simp)⟩⟩

/-- Counterexample to C8 as stated: with the channel absent, after a
pinching hand frame the stored state is `true`; on the following
no-subject frame the reset to `false` is skipped (the reset is guarded on
the channel being present), so the stored state does not make the
transition it makes when the channel is present. -/
theorem C8_counterexample :
    (runHand false 640 480 [[hand700], []] false).1 = [⟨none, none⟩, ⟨none, none⟩]
    ∧ (runHand false 640 480 [[hand700], []] false).2 = true
    ∧ (runHand true 640 480 [[hand700], []] false).2 = false := by
  refine ⟨?_, ?_, ?_⟩ <;> simp [runHand, stepHand, is_pinching_hand700]

/-- C8 amended: when setup fails the channel is recorded as absent, and
with the channel absent every publish is skipped; measurement and the
state update still happen on frames with a detected subject, but on
no-subject frames the reset of the stored state is also skipped, so the
state keeps its previous value there. -/
theorem C8_amended_no_publish :
    (∀ r e, (setup_rabbitmq_connection r).2 = Except.error e → rabbitmq_channel_of r = none)
    ∧ (∀ (w h : ℚ) hand rest prev,
        (stepHand false w h (hand :: rest) prev).1 = ⟨none, none⟩
        ∧ (stepHand false w h (hand :: rest) prev).2 = is_pinching_hand hand)
    ∧ (∀ (w h : ℚ) prev, stepHand false w h [] prev = (⟨none, none⟩, prev))
    ∧ (∀ (w h : ℚ) kpts prev, RIGHT_WRIST_IDX < kpts.length →
        (stepBody false w h (some kpts) prev).1 = ⟨none, none⟩
        ∧ (stepBody false w h (some kpts) prev).2 = is_pinching_body kpts)
    ∧ (∀ (w h : ℚ) f prev, bodyNoSubject f → stepBody false w h f prev = (⟨none, none⟩, prev)) := by
  refine ⟨?_, ?_, ?_, ?_, ?_⟩
  · intro r e hr
    simp [rabbitmq_channel_of, hr]
  · intro w h hand rest prev
    cases hb : is_pinching_hand hand <;> cases prev <;> simp [stepHand, hb]
  · intro w h prev
    cases prev <;> simp [stepHand]
  · intro w h kpts prev hlen
    cases hb : is_pinching_body kpts <;> cases prev <;> simp [stepBody, hlen, hb]
  · intro w h f prev hf
    rw [stepBody_noSubject false w h f hf prev]
    simp

/-- Witness for the amended C8: a connection failure records no channel,
and a subject frame with the channel absent publishes nothing while still
updating the state. -/
theorem C8_witness :
    rabbitmq_channel_of ConnectResult.connectFailure = none
    ∧ ((stepBody false 640 480 (some body07) true).1 = ⟨none, none⟩
      ∧ (stepBody false 640 480 (some body07) true).2 = is_pinching_body body07) :=
  ⟨C8_amended_no_publish.1 ConnectResult.connectFailure SetupError.connectFailure rfl,
   C8_amended_no_publish.2.2.2.1 640 480 body07 true (by simp [RIGHT_WRIST_IDX, body07])⟩
